import Mathlib

/-!
Shallow embedding of the document analyzer (src/document_analyzer.py and
src/gui_analyzer.py) together with proofs about its specification.

Modelling conventions:
- Tokenization (nltk.word_tokenize) and POS tagging (nltk.pos_tag) are
  external black-box capabilities; they appear as explicit function
  parameters (tokenize : String → List String,
  tag : List String → List (String × String)).
- The filesystem and the pypdf / python-docx parsers are external; they
  appear as a record of functions (FileSystem below).  A parse that raises
  is an Except.error carrying the exception message.
- Python strings are Lean Strings; machine-level details (ints, floats)
  do not occur in this program.
-/

/-- Python's character class \w (re.fullmatch(r'\w+', word) in
analyze_text).  Python's \w without re.ASCII matches Unicode alphanumeric
characters and the underscore.  This model is exact on the Basic Latin and
Latin-1 Supplement blocks (codepoints < 0x100): ASCII letters, digits and
underscore, plus the Latin-1 letters (ªµº, À-Ö, Ø-ö, ø-ÿ) and the Latin-1
numeric characters (²³¹¼½¾); every concrete string in this development
stays inside that range. -/
def pyIsWordChar (c : Char) : Bool :=
  (('a' ≤ c && c ≤ 'z') || ('A' ≤ c && c ≤ 'Z') || ('0' ≤ c && c ≤ '9') || c = '_')
  || (c.toNat = 0xAA) || (c.toNat = 0xB5) || (c.toNat = 0xBA)
  || (c.toNat = 0xB2) || (c.toNat = 0xB3) || (c.toNat = 0xB9)
  || (0xBC ≤ c.toNat && c.toNat ≤ 0xBE)
  || (0xC0 ≤ c.toNat && c.toNat ≤ 0xFF && c.toNat ≠ 0xD7 && c.toNat ≠ 0xF7)

/-- re.fullmatch(r'\w+', word): the whole token consists of Python word
characters (at least one). -/
def pyWordMatch (w : String) : Bool :=
  !w.toList.isEmpty && w.toList.all pyIsWordChar

/-- Python str.lower on one character, modelled exactly on the Basic Latin
and Latin-1 Supplement blocks: ASCII A-Z and Latin-1 À-Þ (except ×) map
down by 32, everything else in that range is already caseless or
lowercase. -/
def lowerChar (c : Char) : Char :=
  if 65 ≤ c.toNat ∧ c.toNat ≤ 90 then Char.ofNat (c.toNat + 32)
  else if 192 ≤ c.toNat ∧ c.toNat ≤ 222 ∧ c.toNat ≠ 215 then Char.ofNat (c.toNat + 32)
  else c

/-- Python str.lower (see lowerChar for the modelled range). -/
def py_lower (w : String) : String :=
  String.mk (w.toList.map lowerChar)

/-- Python str.startswith(pre): the characters of pre are a prefix of the
characters of s (written on character lists so that it evaluates inside
the kernel). -/
def py_startswith (pre s : String) : Bool :=
  pre.toList.isPrefixOf s.toList

/-- The character class [A-Za-z0-9_] of the spec's regular expression. -/
def asciiWordClass (c : Char) : Bool :=
  ('a' ≤ c && c ≤ 'z') || ('A' ≤ c && c ≤ 'Z') || ('0' ≤ c && c ≤ '9') || c = '_'

/-- Word-shape predicate written from the spec's words (§8): the token's
lowercased form fully matches the regular expression ^[A-Za-z0-9_]+$.
Declared only to be compared with the source's pyWordMatch. -/
def spec_word_regex (w : String) : Bool :=
  !(w.toList.map lowerChar).isEmpty && (w.toList.map lowerChar).all asciiWordClass

/-- words = [word.lower() for word in tokens if re.fullmatch(r'\w+', word)]
(analyze_text, both files). -/
def analyzeWords (tokens : List String) : List String :=
  (tokens.filter pyWordMatch).map py_lower

/-- adjectives = [word.lower() for word, tag in tagged_words if
tag.startswith('JJ')] (analyze_text, both files). -/
def adjectivesOf (tagged : List (String × String)) : List String :=
  (tagged.filter (fun p => py_startswith "JJ" p.2)).map (fun p => py_lower p.1)

/-- Key list of collections.Counter(l): the distinct elements of l in
order of first insertion (Python dicts preserve insertion order). -/
def dedupFirst : List String → List String
  | [] => []
  | w :: ws => w :: (dedupFirst ws).filter (fun v => v ≠ w)

/-- collections.Counter(l) as an insertion-ordered association list:
each distinct element of l, in order of first appearance, paired with its
number of occurrences in l. -/
def counterList (l : List String) : List (String × Nat) :=
  (dedupFirst l).map (fun w => (w, l.count w))

/-- One step of a stable descending insertion sort on (key, count) pairs:
x goes in front of the first entry whose count does not exceed x's, so an
element inserted later (i.e. occurring earlier in the original list) stays
in front of entries with an equal count. -/
def insertDesc (x : String × Nat) : List (String × Nat) → List (String × Nat)
  | [] => [x]
  | y :: ys => if y.2 ≤ x.2 then x :: y :: ys else y :: insertDesc x ys

/-- Stable sort by count descending, ties kept in original order.  This is
the ordering CPython's Counter.most_common produces (heapq.nlargest is
documented as equivalent to sorted(iterable, key=key, reverse=True)[:n],
which is a stable sort). -/
def sortDesc (l : List (String × Nat)) : List (String × Nat) :=
  l.foldr insertDesc []

/-- Counter.most_common(n): the n entries with the largest counts, count
descending, ties in insertion order. -/
def most_common (n : Nat) (l : List (String × Nat)) : List (String × Nat) :=
  (sortDesc l).take n

/-- analyze_text (identical in src/document_analyzer.py and
src/gui_analyzer.py): word count over a \w+ full-match filter, then POS
tagging of the same token list, then the top-10 adjective table.  The
external tokenizer has already been applied (tokens parameter); the
external tagger is the tag parameter. -/
def analyze_text (tag : List String → List (String × String))
    (tokens : List String) : Nat × List (String × Nat) :=
  let words := analyzeWords tokens
  let total_word_count := words.length
  let tagged_words := tag tokens
  let adjectives := adjectivesOf tagged_words
  let adjective_counts := counterList adjectives
  (total_word_count, most_common 10 adjective_counts)

/-- Last index of character c in cs, if any (Python str.rfind). -/
def lastIdxOf (cs : List Char) (c : Char) : Option Nat :=
  cs.foldl (fun (acc : Option Nat × Nat) d =>
    (if d = c then some acc.2 else acc.1, acc.2 + 1)) (none, 0) |>.1

/-- os.path.splitext (posixpath): split off the extension that starts at
the last dot of the final path component, unless every character of that
component before the dot is itself a dot (so ".bashrc" has no
extension). -/
def splitext (p : String) : String × String :=
  let cs := p.toList
  let start := match lastIdxOf cs '/' with
    | none => 0
    | some i => i + 1
  match lastIdxOf cs '.' with
  | none => (p, "")
  | some d =>
    if start ≤ d ∧ ((cs.drop start).take (d - start)).any (fun c => c ≠ '.') then
      (String.mk (cs.take d), String.mk (cs.drop d))
    else (p, "")

/-- os.path.basename (posixpath): everything after the last '/'. -/
def basename (p : String) : String :=
  let cs := p.toList
  match lastIdxOf cs '/' with
  | none => p
  | some i => String.mk (cs.drop (i + 1))

/-- The external world of get_document_text: whether a path exists
(os.path.exists), and what the pypdf / python-docx parsers produce for it.
pdfPages gives page.extract_text() for each page in order ("" when a page
yields no text); docxParagraphs gives paragraph.text for each paragraph in
order.  An Except.error is a raised exception, carrying str(e). -/
structure FileSystem where
  pathExists : String → Bool
  pdfPages : String → Except String (List String)
  docxParagraphs : String → Except String (List String)

/-- get_document_text (identical in both source files): existence check,
then dispatch on the lowercased extension; PDF pages are appended with a
newline only when non-empty, DOCX paragraphs always; unknown extensions
and parse exceptions produce sentinel strings. -/
def get_document_text (fs : FileSystem) (file_path : String) : String :=
  if fs.pathExists file_path = false then
    "Error: File not found at path: " ++ file_path
  else
    let file_extension := (splitext file_path).2
    if py_lower file_extension = ".pdf" then
      match fs.pdfPages file_path with
      | .error e => "Error reading PDF: " ++ e
      | .ok pages => pages.foldl
          (fun text page_text =>
            if page_text ≠ "" then text ++ page_text ++ "\n" else text) ""
    else if py_lower file_extension = ".docx" then
      match fs.docxParagraphs file_path with
      | .error e => "Error reading DOCX: " ++ e
      | .ok paras => paras.foldl (fun text p => text ++ p ++ "\n") ""
    else
      "Unsupported file type: " ++ file_extension ++ ". Please use .pdf or .docx"

/-- PDF extraction result written from the spec's words (§4.1/§8:
"non-empty page texts separated by a newline", empty pages contributing
nothing).  Declared only to be compared with get_document_text. -/
def pdf_text_spec (pages : List String) : String :=
  String.intercalate "\n" (pages.filter (fun p => p ≠ ""))

/-- The loop of split_text_into_chapters (src/gui_analyzer.py): append
each token to the current chunk; once the chunk holds at least target
tokens and fewer than max_chunks - 1 chunks are closed, close it (the
closed chunk list is kept as token lists; joining happens in
split_text_into_chapters).  After the loop the leftover chunk, if
non-empty, becomes the last chapter. -/
def chunkLoop (target max_chunks : Nat) :
    List String → List String → List (List String) → List (List String)
  | [], current_chunk, chapter_chunks =>
    if current_chunk.isEmpty then chapter_chunks
    else chapter_chunks ++ [current_chunk]
  | token :: rest, current_chunk, chapter_chunks =>
    let current_chunk := current_chunk ++ [token]
    if target ≤ current_chunk.length ∧ chapter_chunks.length < max_chunks - 1 then
      chunkLoop target max_chunks rest [] (chapter_chunks ++ [current_chunk])
    else
      chunkLoop target max_chunks rest current_chunk chapter_chunks

/-- split_text_into_chapters on an already tokenized text:
target_size = max(1, total_words // max_chunks), then the greedy loop. -/
def splitTokenChunks (tokens : List String) (max_chunks : Nat) : List (List String) :=
  chunkLoop (max 1 (tokens.length / max_chunks)) max_chunks tokens [] []

/-- split_text_into_chapters (src/gui_analyzer.py): tokenize, chunk, and
rejoin each chunk with single spaces (" ".join). -/
def split_text_into_chapters (tokenize : String → List String)
    (text : String) (max_chunks : Nat) : List String :=
  (splitTokenChunks (tokenize text) max_chunks).map (String.intercalate " ")

/-- Python format spec {:,} applied to a natural number: decimal digits
with a comma every three digits, working from the right (input is the
reversed digit list). -/
def groupThrees : List Char → List Char
  | c1 :: c2 :: c3 :: c4 :: rest => c1 :: c2 :: c3 :: ',' :: groupThrees (c4 :: rest)
  | l => l

/-- f"{word_count:,}": thousands-separated decimal rendering. -/
def commaFormat (n : Nat) : String :=
  String.mk (groupThrees (toString n).toList.reverse).reverse

/-- One rendered adjective table row per entry, rank starting at 1
(enumerate(top_adjectives, 1)). -/
def adjectiveRows (top_adjectives : List (String × Nat)) : String :=
  String.join ((top_adjectives.zip (List.range top_adjectives.length)).map
    (fun p => "| " ++ toString (p.2 + 1) ++ " | **" ++ p.1.1 ++ "** | "
      ++ toString p.1.2 ++ " |\n"))

/-- generate_markdown_report (src/document_analyzer.py, the UTF-8 clean
variant): title, file name, word count, then either the top-10 table or
the no-adjectives sentence. -/
def generate_markdown_report (word_count : Nat)
    (top_adjectives : List (String × Nat)) (file_path : String) : String :=
  "## 📄 Document Analysis Report\n\n"
  ++ ("**File Analyzed:** `" ++ basename file_path ++ "`\n\n")
  ++ "---\n\n"
  ++ "### ✅ Total Word Count\n\n"
  ++ ("The document contains **" ++ commaFormat word_count ++ "** words.\n\n")
  ++ "### 🏆 Top 10 Adjective Scoreboard\n\n"
  ++ (if top_adjectives.isEmpty then
        "No adjectives were found in the document to display a scoreboard.\n"
      else
        "| Rank | Adjective | Count |\n"
        ++ "| :--- | :-------- | :---- |\n"
        ++ adjectiveRows top_adjectives)

/-- generate_markdown_report as it appears in src/gui_analyzer.py: the
same report, but that file's header literals are mojibake (UTF-8 emoji
bytes mis-decoded as cp1252), reproduced here with escapes. -/
def gui_generate_markdown_report (word_count : Nat)
    (top_adjectives : List (String × Nat)) (file_path : String) : String :=
  "## ðŸ“„ Document Analysis Report\n\n"
  ++ ("**File Analyzed:** `" ++ basename file_path ++ "`\n\n")
  ++ "---\n\n"
  ++ "### âœ… Total Word Count\n\n"
  ++ ("The document contains **" ++ commaFormat word_count ++ "** words.\n\n")
  ++ "### ðŸ† Top 10 Adjective Scoreboard\n\n"
  ++ (if top_adjectives.isEmpty then
        "No adjectives were found in the document to display a scoreboard.\n"
      else
        "| Rank | Adjective | Count |\n"
        ++ "| :--- | :-------- | :---- |\n"
        ++ adjectiveRows top_adjectives)

/-- The per-chapter header rewrite in analyze_by_chapter:
report_content.replace("## 📄 Document Analysis Report" (mojibake),
f"## 📖 Analysis Report: {chapter_name}" (mojibake)). -/
def chapterHeaderReplace (chapter_name : String) (report_content : String) : String :=
  report_content.replace "## ðŸ“„ Document Analysis Report"
    ("## ðŸ“– Analysis Report: " ++ chapter_name)

/-- analyze_by_chapter (src/gui_analyzer.py): split into at most 3
chapters, produce the full-document report under "Full Document Summary",
then one report per chapter under "Chapter i" (enumerate from 1), each
from an independent analyze_text run on that chapter's rejoined text; the
Python dict is an insertion-ordered association list. -/
def analyze_by_chapter (tokenize : String → List String)
    (tag : List String → List (String × String))
    (document_text file_path : String) : List (String × String) :=
  let chapter_texts := split_text_into_chapters tokenize document_text 3
  let full := analyze_text tag (tokenize document_text)
  ("Full Document Summary", gui_generate_markdown_report full.1 full.2 file_path)
  :: (chapter_texts.zip (List.range chapter_texts.length)).map
    (fun p =>
      let chapter_name := "Chapter " ++ toString (p.2 + 1)
      let r := analyze_text tag (tokenize p.1)
      (chapter_name,
        chapterHeaderReplace chapter_name
          (gui_generate_markdown_report r.1 r.2 file_path)))

/-- The caller-side failure test in main_app (src/document_analyzer.py)
and run_analysis (src/gui_analyzer.py): a returned string counts as a
failed extraction iff it starts with "Error" or "Unsupported". -/
def extraction_failed (document_text : String) : Bool :=
  py_startswith "Error" document_text || py_startswith "Unsupported" document_text

/-! ### Helper lemmas -/

theorem mem_insertDesc (x : String × Nat) :
    ∀ (s : List (String × Nat)) (y : String × Nat),
    y ∈ insertDesc x s → y = x ∨ y ∈ s := by
  intro s
  induction s with
  | nil =>
    intro y h
    simp only [insertDesc, List.mem_singleton] at h
    exact Or.inl h
  | cons z zs ih =>
    intro y h
    simp only [insertDesc] at h
    by_cases hc : z.2 ≤ x.2
    · rw [if_pos hc] at h
      rcases List.mem_cons.mp h with h1 | h2
      · exact Or.inl h1
      · exact Or.inr h2
    · rw [if_neg hc] at h
      rcases List.mem_cons.mp h with h1 | h2
      · exact Or.inr (h1 ▸ List.mem_cons_self z zs)
      · rcases ih y h2 with h3 | h4
        · exact Or.inl h3
        · exact Or.inr (List.mem_cons_of_mem z h4)

theorem insertDesc_pairwise (R : String × Nat → String × Nat → Prop)
    (x : String × Nat) :
    ∀ (s : List (String × Nat)),
    s.Pairwise (fun p q => q.2 ≤ p.2 ∧ (p.2 = q.2 → R p q)) →
    (∀ y ∈ s, x.2 = y.2 → R x y) →
    (insertDesc x s).Pairwise (fun p q => q.2 ≤ p.2 ∧ (p.2 = q.2 → R p q)) := by
  intro s
  induction s with
  | nil =>
    intro _ _
    simp [insertDesc]
  | cons z zs ih =>
    intro hp hx
    rw [List.pairwise_cons] at hp
    obtain ⟨hz, hzs⟩ := hp
    simp only [insertDesc]
    by_cases hc : z.2 ≤ x.2
    · rw [if_pos hc]
      refine List.Pairwise.cons ?_ (List.Pairwise.cons hz hzs)
      intro y hy
      rcases List.mem_cons.mp hy with rfl | hy'
      · exact ⟨hc, hx y (List.mem_cons_self _ _)⟩
      · have h1 := hz y hy'
        exact ⟨le_trans h1.1 hc, hx y (List.mem_cons_of_mem _ hy')⟩
    · rw [if_neg hc]
      refine List.Pairwise.cons ?_
        (ih hzs (fun y hy hxy => hx y (List.mem_cons_of_mem _ hy) hxy))
      intro y hy
      have hlt : x.2 < z.2 := Nat.lt_of_not_le hc
      rcases mem_insertDesc x zs y hy with rfl | hy'
      · exact ⟨Nat.le_of_lt hlt, fun hEq => absurd hEq.symm (Nat.ne_of_lt hlt)⟩
      · exact hz y hy'

theorem mem_sortDesc (y : String × Nat) :
    ∀ (l : List (String × Nat)), y ∈ sortDesc l → y ∈ l := by
  intro l
  induction l with
  | nil =>
    intro h
    simp [sortDesc] at h
  | cons x xs ih =>
    intro h
    have hrw : sortDesc (x :: xs) = insertDesc x (sortDesc xs) := rfl
    rw [hrw] at h
    rcases mem_insertDesc x (sortDesc xs) y h with rfl | h'
    · exact List.mem_cons_self _ _
    · exact List.mem_cons_of_mem _ (ih h')

theorem sortDesc_pairwise (R : String × Nat → String × Nat → Prop) :
    ∀ (l : List (String × Nat)),
    l.Pairwise (fun p q => p.2 = q.2 → R p q) →
    (sortDesc l).Pairwise (fun p q => q.2 ≤ p.2 ∧ (p.2 = q.2 → R p q)) := by
  intro l
  induction l with
  | nil =>
    intro _
    simp [sortDesc]
  | cons x xs ih =>
    intro hp
    rw [List.pairwise_cons] at hp
    obtain ⟨hx, hxs⟩ := hp
    have hrw : sortDesc (x :: xs) = insertDesc x (sortDesc xs) := rfl
    rw [hrw]
    refine insertDesc_pairwise R x (sortDesc xs) (ih hxs) ?_
    intro y hy hxy
    exact hx y (mem_sortDesc y xs hy) hxy

theorem dedupFirst_pairwise : ∀ (l : List String),
    (dedupFirst l).Pairwise (fun a b => l.indexOf a < l.indexOf b) := by
  intro l
  induction l with
  | nil => simp [dedupFirst]
  | cons w ws ih =>
    simp only [dedupFirst]
    refine List.Pairwise.cons ?_ ?_
    · intro b hb
      have hbne : b ≠ w := by simpa using List.of_mem_filter hb
      rw [List.indexOf_cons_self, List.indexOf_cons_ne _ (Ne.symm hbne)]
      exact Nat.succ_pos _
    · refine List.Pairwise.imp_of_mem ?_ (List.Pairwise.filter _ ih)
      intro a b ha hb hab
      have hane : a ≠ w := by simpa using List.of_mem_filter ha
      have hbne : b ≠ w := by simpa using List.of_mem_filter hb
      rw [List.indexOf_cons_ne _ (Ne.symm hane), List.indexOf_cons_ne _ (Ne.symm hbne)]
      exact Nat.succ_lt_succ hab

theorem counterList_pairwise (l : List String) :
    (counterList l).Pairwise (fun p q => l.indexOf p.1 < l.indexOf q.1) := by
  unfold counterList
  rw [List.pairwise_map]
  exact dedupFirst_pairwise l

theorem most_common_counterList_spec (l : List String) (n : Nat) :
    (most_common n (counterList l)).length ≤ n
    ∧ (most_common n (counterList l)).Pairwise
        (fun p q => q.2 ≤ p.2 ∧ (p.2 = q.2 → l.indexOf p.1 < l.indexOf q.1)) := by
  constructor
  · exact List.length_take_le _ _
  · refine List.Pairwise.sublist (List.take_sublist _ _) ?_
    refine sortDesc_pairwise _ (counterList l) ?_
    exact (counterList_pairwise l).imp (fun h => fun _ => h)

theorem chunkLoop_spec (target max_chunks : Nat) (ht : 1 ≤ target) :
    ∀ (tokens cur : List String) (chunks : List (List String)),
    chunks.length ≤ max_chunks - 1 →
    (∀ c ∈ chunks, c.length = target) →
    (chunks.length < max_chunks - 1 → cur.length < target) →
    ((chunkLoop target max_chunks tokens cur chunks).map List.length).sum
        = ((chunks.map List.length).sum + cur.length) + tokens.length
    ∧ (chunkLoop target max_chunks tokens cur chunks).length ≤ (max_chunks - 1) + 1
    ∧ ∀ c ∈ (chunkLoop target max_chunks tokens cur chunks).dropLast,
        c.length = target := by
  intro tokens
  induction tokens with
  | nil =>
    intro cur chunks h1 h2 _
    simp only [chunkLoop]
    by_cases hc : cur.isEmpty
    · rw [if_pos hc]
      have hlen : cur.length = 0 := List.isEmpty_iff_length_eq_zero.mp hc
      refine ⟨by simp [hlen], le_trans h1 (Nat.le_succ _), ?_⟩
      intro c hcmem
      exact h2 c (List.mem_of_mem_dropLast hcmem)
    · rw [if_neg hc]
      refine ⟨by simp, ?_, ?_⟩
      · simpa using Nat.succ_le_succ h1
      · rw [List.dropLast_concat]
        exact h2
  | cons t ts ih =>
    intro cur chunks h1 h2 h3
    simp only [chunkLoop]
    by_cases hc : target ≤ (cur ++ [t]).length ∧ chunks.length < max_chunks - 1
    · rw [if_pos hc]
      have hclen : cur.length < target := h3 hc.2
      have hc1 : cur.length + 1 = target := by
        have := hc.1
        simp only [List.length_append, List.length_singleton] at this
        omega
      have hcur : (cur ++ [t]).length = target := by
        simp only [List.length_append, List.length_singleton]
        exact hc1
      obtain ⟨s1, s2, s3⟩ := ih [] (chunks ++ [cur ++ [t]])
        (by simpa using hc.2)
        (by
          intro c hcmem
          rcases List.mem_append.mp hcmem with h | h
          · exact h2 c h
          · rw [List.mem_singleton.mp h]
            exact hcur)
        (fun _ => ht)
      refine ⟨?_, s2, s3⟩
      rw [s1]
      simp only [List.map_append, List.sum_append, List.map_cons, List.map_nil,
        List.sum_cons, List.sum_nil, List.length_nil, List.length_cons, hcur]
      omega
    · rw [if_neg hc]
      obtain ⟨s1, s2, s3⟩ := ih (cur ++ [t]) chunks h1 h2
        (by
          intro hlt
          have hA : ¬ target ≤ (cur ++ [t]).length := fun hA => hc ⟨hA, hlt⟩
          exact Nat.lt_of_not_le hA)
      refine ⟨?_, s2, s3⟩
      have hlen2 : (cur ++ [t]).length = cur.length + 1 := by simp
      rw [s1, hlen2]
      simp only [List.length_cons]
      omega

theorem all_congr_mem {α : Type} (f g : α → Bool) :
    ∀ (l : List α), (∀ x ∈ l, f x = g x) → l.all f = l.all g := by
  intro l
  induction l with
  | nil => intro _; rfl
  | cons x xs ih =>
    intro h
    simp only [List.all_cons]
    rw [h x (List.mem_cons_self _ _), ih (fun y hy => h y (List.mem_cons_of_mem _ hy))]

theorem ascii_word_char_nat :
    ∀ n : Nat, n < 128 →
      asciiWordClass (lowerChar (Char.ofNat n)) = pyIsWordChar (Char.ofNat n) := by
  decide

theorem ascii_word_char (c : Char) (h : c.toNat < 128) :
    asciiWordClass (lowerChar c) = pyIsWordChar c := by
  have hn := ascii_word_char_nat c.toNat h
  rwa [Char.ofNat_toNat] at hn

theorem map_isEmpty {α β : Type} (f : α → β) (l : List α) :
    (l.map f).isEmpty = l.isEmpty := by
  cases l <;> rfl

theorem spec_word_regex_eq_pyWordMatch (w : String)
    (h : w.toList.all (fun c => decide (c.toNat < 128)) = true) :
    spec_word_regex w = pyWordMatch w := by
  unfold spec_word_regex pyWordMatch
  rw [map_isEmpty, List.all_map]
  congr 1
  refine all_congr_mem _ _ w.toList ?_
  intro c hc
  have hc128 : c.toNat < 128 := by
    rw [List.all_eq_true] at h
    exact of_decide_eq_true (h c hc)
  exact ascii_word_char c hc128

theorem join_cons (s : String) (ss : List String) :
    String.join (s :: ss) = s ++ String.join ss := by
  apply String.ext
  rw [String.data_append, String.join_eq, String.join_eq]
  simp

theorem docx_foldl (paras : List String) :
    ∀ acc : String,
    paras.foldl (fun text p => text ++ p ++ "\n") acc
      = acc ++ String.join (paras.map (fun p => p ++ "\n")) := by
  induction paras with
  | nil =>
    intro acc
    show acc = acc ++ String.join []
    rw [show String.join ([] : List String) = "" from rfl, String.append_empty]
  | cons p ps ih =>
    intro acc
    rw [List.map_cons, join_cons, List.foldl_cons, ih (acc ++ p ++ "\n")]
    simp [String.append_assoc]

theorem pdf_foldl (pages : List String) :
    ∀ acc : String,
    pages.foldl (fun text page_text =>
        if page_text ≠ "" then text ++ page_text ++ "\n" else text) acc
      = acc ++ String.join ((pages.filter (fun p => p ≠ "")).map (fun p => p ++ "\n")) := by
  induction pages with
  | nil =>
    intro acc
    show acc = acc ++ String.join []
    rw [show String.join ([] : List String) = "" from rfl, String.append_empty]
  | cons p ps ih =>
    intro acc
    by_cases hp : p = ""
    · subst hp
      rw [List.foldl_cons, if_neg (by simp), List.filter_cons, if_neg (by simp)]
      exact ih acc
    · rw [List.foldl_cons, if_pos hp, List.filter_cons, if_pos (by simpa using hp),
        List.map_cons, join_cons, ih (acc ++ p ++ "\n")]
      simp [String.append_assoc]

/-! ### Claim theorems -/

/-- C1 (counterexample): at the token list ["café"] (a token the external
tokenizer can produce from text containing the word café), analyze_text
counts 1 word because Python's \w matches the Unicode letter é, while the
claim's regular expression ^[A-Za-z0-9_]+$ matches no token, so the two
counts differ. -/
theorem analyze_text_word_count_regex_counterexample :
    (analyze_text (fun _ => []) ["café"]).1 = 1
    ∧ ((["café"] : List String).filter spec_word_regex).length = 0
    ∧ (analyze_text (fun _ => []) ["café"]).1
        ≠ ((["café"] : List String).filter spec_word_regex).length := by
  refine ⟨rfl, rfl, ?_⟩
  decide

/-- C1 (amended): for every input token list — ASCII or not — the total
word count returned by analyze_text equals the number of tokens fully
matching Python's word-shape predicate \w+ (Unicode-aware: letters
including non-ASCII ones, digits, underscore); and when every token is
ASCII this count moreover coincides with the number of tokens whose
lowercased form fully matches ^[A-Za-z0-9_]+$. -/
theorem analyze_text_word_count (tag : List String → List (String × String))
    (tokens : List String) :
    (analyze_text tag tokens).1 = (tokens.filter pyWordMatch).length
    ∧ ((∀ w ∈ tokens, w.toList.all (fun c => decide (c.toNat < 128)) = true) →
        (analyze_text tag tokens).1 = (tokens.filter spec_word_regex).length) := by
  have h1 : (analyze_text tag tokens).1 = (tokens.filter pyWordMatch).length := by
    simp [analyze_text, analyzeWords]
  refine ⟨h1, fun hascii => ?_⟩
  rw [h1, List.filter_congr
    (fun w hw => (spec_word_regex_eq_pyWordMatch w (hascii w hw)).symm)]

theorem analyze_text_word_count_witness :
    (analyze_text (fun _ => []) ["The", "café", "."]).1
        = ((["The", "café", "."] : List String).filter pyWordMatch).length
    ∧ (analyze_text (fun _ => []) ["The", "quick", "brown", "fox", "."]).1
        = ((["The", "quick", "brown", "fox", "."] : List String).filter spec_word_regex).length :=
  ⟨(analyze_text_word_count (fun _ => []) ["The", "café", "."]).1,
    (analyze_text_word_count (fun _ => []) ["The", "quick", "brown", "fox", "."]).2 (by decide)⟩

/-- C2: for every tagging of every token list, the adjective table
rendered by analyze_text has at most 10 entries, and pairwise along the
table counts never increase, while entries with equal counts are ordered
by the first occurrence of their (lowercased) adjective in the
text-ordered adjective list. -/
theorem analyze_text_top_adjectives_ranking
    (tag : List String → List (String × String)) (tokens : List String) :
    ((analyze_text tag tokens).2).length ≤ 10
    ∧ ((analyze_text tag tokens).2).Pairwise
        (fun p q => q.2 ≤ p.2
          ∧ (p.2 = q.2 →
              (adjectivesOf (tag tokens)).indexOf p.1
                < (adjectivesOf (tag tokens)).indexOf q.1)) :=
  most_common_counterList_spec (adjectivesOf (tag tokens)) 10

/-- C3: for every tokenization of every text and every max_chunks ≥ 1, the
chapters of split_text_into_chapters are the space-joins of the underlying
token chunks, and those chunks partition the token sequence: their lengths
sum to the total token count, there are at most max_chunks of them, and
every chunk except possibly the last has exactly
target_size = max(1, total_tokens / max_chunks) tokens. -/
theorem split_text_into_chapters_partition
    (tokenize : String → List String) (text : String) (max_chunks : Nat)
    (hm : 1 ≤ max_chunks) :
    split_text_into_chapters tokenize text max_chunks
      = (splitTokenChunks (tokenize text) max_chunks).map (String.intercalate " ")
    ∧ ((splitTokenChunks (tokenize text) max_chunks).map List.length).sum
        = (tokenize text).length
    ∧ (splitTokenChunks (tokenize text) max_chunks).length ≤ max_chunks
    ∧ ∀ c ∈ (splitTokenChunks (tokenize text) max_chunks).dropLast,
        c.length = max 1 ((tokenize text).length / max_chunks) := by
  have ht : 1 ≤ max 1 ((tokenize text).length / max_chunks) := le_max_left _ _
  obtain ⟨s1, s2, s3⟩ := chunkLoop_spec (max 1 ((tokenize text).length / max_chunks))
    max_chunks ht (tokenize text) [] [] (by simp) (by simp) (fun _ => ht)
  refine ⟨rfl, ?_, ?_, s3⟩
  · simpa using s1
  · have hmx : max_chunks - 1 + 1 = max_chunks := by omega
    exact le_trans s2 (Nat.le_of_eq hmx)

theorem split_text_into_chapters_partition_witness :
    1 ≤ 3
    ∧ (split_text_into_chapters (fun _ => ["a", "b", "c", "d", "e"]) "t" 3
        = (splitTokenChunks ((fun (_ : String) => ["a", "b", "c", "d", "e"]) "t") 3).map
            (String.intercalate " ")
      ∧ ((splitTokenChunks ((fun (_ : String) => ["a", "b", "c", "d", "e"]) "t") 3).map
            List.length).sum = ((fun (_ : String) => ["a", "b", "c", "d", "e"]) "t").length
      ∧ (splitTokenChunks ((fun (_ : String) => ["a", "b", "c", "d", "e"]) "t") 3).length ≤ 3
      ∧ ∀ c ∈ (splitTokenChunks ((fun (_ : String) => ["a", "b", "c", "d", "e"]) "t") 3).dropLast,
          c.length = max 1 (((fun (_ : String) => ["a", "b", "c", "d", "e"]) "t").length / 3)) :=
  ⟨by decide, split_text_into_chapters_partition (fun _ => ["a", "b", "c", "d", "e"]) "t" 3 (by decide)⟩

/-- C4 (counterexample): on text that tokenizes to zero tokens the code
returns the empty list of chapters, not a single empty-text chapter, so
split_text_into_chapters does not always return at least one chapter. -/
theorem split_text_into_chapters_empty_counterexample :
    split_text_into_chapters (fun _ => []) "" 3 = []
    ∧ ¬ 1 ≤ (split_text_into_chapters (fun _ => []) "" 3).length := by
  refine ⟨rfl, ?_⟩
  decide

/-- C4 (amended): for every tokenization and every max_chunks ≥ 1, when
the text tokenizes to zero tokens split_text_into_chapters returns the
empty list (no chapters at all), and when it tokenizes to at least one
token the result has between 1 and max_chunks chapters. -/
theorem split_text_into_chapters_chapter_count
    (tokenize : String → List String) (text : String) (max_chunks : Nat)
    (hm : 1 ≤ max_chunks) :
    (tokenize text = [] → split_text_into_chapters tokenize text max_chunks = [])
    ∧ (tokenize text ≠ [] →
        1 ≤ (split_text_into_chapters tokenize text max_chunks).length
        ∧ (split_text_into_chapters tokenize text max_chunks).length ≤ max_chunks) := by
  have ht : 1 ≤ max 1 ((tokenize text).length / max_chunks) := le_max_left _ _
  obtain ⟨s1, s2, _⟩ := chunkLoop_spec (max 1 ((tokenize text).length / max_chunks))
    max_chunks ht (tokenize text) [] [] (by simp) (by simp) (fun _ => ht)
  constructor
  · intro h
    unfold split_text_into_chapters splitTokenChunks
    rw [h]
    rfl
  · intro h
    have hlen : (split_text_into_chapters tokenize text max_chunks).length
        = (splitTokenChunks (tokenize text) max_chunks).length := by
      unfold split_text_into_chapters
      exact List.length_map _ _
    constructor
    · rw [hlen]
      by_contra hct
      have hz : (splitTokenChunks (tokenize text) max_chunks).length = 0 := by omega
      have hnil : splitTokenChunks (tokenize text) max_chunks = [] :=
        List.eq_nil_of_length_eq_zero hz
      have hsum : ((splitTokenChunks (tokenize text) max_chunks).map List.length).sum
          = (tokenize text).length := by simpa using s1
      rw [hnil] at hsum
      have : (tokenize text).length = 0 := by simpa using hsum.symm
      exact h (List.eq_nil_of_length_eq_zero this)
    · rw [hlen]
      have hmx : max_chunks - 1 + 1 = max_chunks := by omega
      exact le_trans s2 (Nat.le_of_eq hmx)

theorem split_text_into_chapters_chapter_count_witness :
    1 ≤ 3
    ∧ (((fun (_ : String) => (["a", "b"] : List String)) "t" = [] →
          split_text_into_chapters (fun _ => ["a", "b"]) "t" 3 = [])
      ∧ ((fun (_ : String) => (["a", "b"] : List String)) "t" ≠ [] →
          1 ≤ (split_text_into_chapters (fun _ => ["a", "b"]) "t" 3).length
          ∧ (split_text_into_chapters (fun _ => ["a", "b"]) "t" 3).length ≤ 3)) :=
  ⟨by decide, split_text_into_chapters_chapter_count (fun _ => ["a", "b"]) "t" 3 (by decide)⟩

/-- C5: whenever a path does not exist, get_document_text returns the
file-not-found sentinel naming that path, whatever the parsers would do
(the result is a constant over all parser behaviours, so the check
precedes any parsing attempt); and whenever a path exists but its
extension lowercases to neither ".pdf" nor ".docx", it returns the
unsupported-file-type sentinel naming the offending extension. -/
theorem get_document_text_missing_and_unsupported
    (fs fs2 : FileSystem) (path path2 : String)
    (h1 : fs.pathExists path = false)
    (h2 : fs2.pathExists path2 = true)
    (h3 : py_lower (splitext path2).2 ≠ ".pdf")
    (h4 : py_lower (splitext path2).2 ≠ ".docx") :
    get_document_text fs path = "Error: File not found at path: " ++ path
    ∧ get_document_text fs2 path2
        = "Unsupported file type: " ++ (splitext path2).2 ++ ". Please use .pdf or .docx" := by
  constructor
  · unfold get_document_text
    rw [if_pos h1]
  · unfold get_document_text
    rw [if_neg (by simp [h2]), if_neg h3, if_neg h4]

theorem get_document_text_missing_and_unsupported_witness :
    ((FileSystem.mk (fun _ => false) (fun _ => .error "e") (fun _ => .error "e")).pathExists
        "missing.pdf" = false
      ∧ (FileSystem.mk (fun _ => true) (fun _ => .error "e") (fun _ => .error "e")).pathExists
        "report.txt" = true
      ∧ py_lower (splitext "report.txt").2 ≠ ".pdf"
      ∧ py_lower (splitext "report.txt").2 ≠ ".docx")
    ∧ (get_document_text (FileSystem.mk (fun _ => false) (fun _ => .error "e") (fun _ => .error "e"))
          "missing.pdf" = "Error: File not found at path: " ++ "missing.pdf"
      ∧ get_document_text (FileSystem.mk (fun _ => true) (fun _ => .error "e") (fun _ => .error "e"))
          "report.txt"
          = "Unsupported file type: " ++ (splitext "report.txt").2 ++ ". Please use .pdf or .docx") :=
  ⟨⟨rfl, rfl, by decide, by decide⟩,
    get_document_text_missing_and_unsupported
      (FileSystem.mk (fun _ => false) (fun _ => .error "e") (fun _ => .error "e"))
      (FileSystem.mk (fun _ => true) (fun _ => .error "e") (fun _ => .error "e"))
      "missing.pdf" "report.txt" rfl rfl (by decide) (by decide)⟩

/-- C6: for every existing path with a (case-insensitive) .docx extension
whose parse succeeds with a list of paragraph texts, the extracted text is
the concatenation of every paragraph's text, empty paragraphs included,
each followed by one newline. -/
theorem get_document_text_docx_paragraphs
    (fs : FileSystem) (path : String) (paras : List String)
    (h1 : fs.pathExists path = true)
    (h2 : py_lower (splitext path).2 = ".docx")
    (h3 : fs.docxParagraphs path = .ok paras) :
    get_document_text fs path = String.join (paras.map (fun p => p ++ "\n")) := by
  unfold get_document_text
  rw [if_neg (by simp [h1]), if_neg (by rw [h2]; decide), if_pos h2, h3]
  show List.foldl (fun text p => text ++ p ++ "\n") "" paras = _
  rw [docx_foldl paras ""]
  exact String.empty_append _

theorem get_document_text_docx_paragraphs_witness :
    ((FileSystem.mk (fun _ => true) (fun _ => .error "e")
          (fun _ => .ok ["Hello", "", "World"])).pathExists "a.docx" = true
      ∧ py_lower (splitext "a.docx").2 = ".docx"
      ∧ (FileSystem.mk (fun _ => true) (fun _ => .error "e")
          (fun _ => .ok ["Hello", "", "World"])).docxParagraphs "a.docx"
          = .ok ["Hello", "", "World"])
    ∧ get_document_text
        (FileSystem.mk (fun _ => true) (fun _ => .error "e")
          (fun _ => .ok ["Hello", "", "World"])) "a.docx"
        = String.join ((["Hello", "", "World"] : List String).map (fun p => p ++ "\n")) :=
  ⟨⟨rfl, by decide, rfl⟩,
    get_document_text_docx_paragraphs
      (FileSystem.mk (fun _ => true) (fun _ => .error "e")
        (fun _ => .ok ["Hello", "", "World"]))
      "a.docx" ["Hello", "", "World"] rfl (by decide) rfl⟩

/-- C7 (counterexample): a one-page PDF whose page yields "Hello"
extracts to "Hello\n" — each non-empty page text is followed by a
newline — whereas joining the non-empty pages separated by single
newlines, as the claim reads, gives "Hello" with no trailing newline. -/
theorem get_document_text_pdf_trailing_newline_counterexample :
    get_document_text
        (FileSystem.mk (fun _ => true) (fun _ => .ok ["Hello"]) (fun _ => .error "e"))
        "doc.pdf" = "Hello\n"
    ∧ pdf_text_spec ["Hello"] = "Hello"
    ∧ get_document_text
        (FileSystem.mk (fun _ => true) (fun _ => .ok ["Hello"]) (fun _ => .error "e"))
        "doc.pdf" ≠ pdf_text_spec ["Hello"] := by
  refine ⟨rfl, rfl, ?_⟩
  decide

/-- C7 (amended): for every existing path with a (case-insensitive) .pdf
extension whose parse succeeds with a list of page texts, the extracted
text is the concatenation, in page order, of the non-empty page texts each
followed by one newline; pages yielding no text contribute nothing (not
even a blank line).  Equivalently the non-empty pages are separated by
single newlines with one trailing newline after the last. -/
theorem get_document_text_pdf_pages
    (fs : FileSystem) (path : String) (pages : List String)
    (h1 : fs.pathExists path = true)
    (h2 : py_lower (splitext path).2 = ".pdf")
    (h3 : fs.pdfPages path = .ok pages) :
    get_document_text fs path
      = String.join ((pages.filter (fun p => p ≠ "")).map (fun p => p ++ "\n")) := by
  unfold get_document_text
  rw [if_neg (by simp [h1]), if_pos h2, h3]
  show List.foldl (fun text page_text =>
    if page_text ≠ "" then text ++ page_text ++ "\n" else text) "" pages = _
  rw [pdf_foldl pages ""]
  exact String.empty_append _

theorem get_document_text_pdf_pages_witness :
    ((FileSystem.mk (fun _ => true) (fun _ => .ok ["One", "", "Two"])
          (fun _ => .error "e")).pathExists "b.PDF" = true
      ∧ py_lower (splitext "b.PDF").2 = ".pdf"
      ∧ (FileSystem.mk (fun _ => true) (fun _ => .ok ["One", "", "Two"])
          (fun _ => .error "e")).pdfPages "b.PDF" = .ok ["One", "", "Two"])
    ∧ get_document_text
        (FileSystem.mk (fun _ => true) (fun _ => .ok ["One", "", "Two"])
          (fun _ => .error "e")) "b.PDF"
        = String.join (((["One", "", "Two"] : List String).filter
            (fun p => p ≠ "")).map (fun p => p ++ "\n")) :=
  ⟨⟨rfl, by decide, rfl⟩,
    get_document_text_pdf_pages
      (FileSystem.mk (fun _ => true) (fun _ => .ok ["One", "", "Two"]) (fun _ => .error "e"))
      "b.PDF" ["One", "", "Two"] rfl (by decide) rfl⟩

/-- C8: when the text tokenizes to no tokens (as empty or whitespace-only
text does) and the tagger maps no tokens to no tagged tokens, analyze_text
returns word count 0 with an empty adjective table, and the report
rendered from that result ends in the no-adjectives sentence in place of a
table. -/
theorem analyze_text_empty_input_report
    (tokenize : String → List String) (tag : List String → List (String × String))
    (text file_path : String)
    (htok : tokenize text = []) (htag : tag [] = []) :
    analyze_text tag (tokenize text) = (0, [])
    ∧ generate_markdown_report 0 [] file_path
        = "## 📄 Document Analysis Report\n\n"
          ++ ("**File Analyzed:** `" ++ basename file_path ++ "`\n\n")
          ++ "---\n\n"
          ++ "### ✅ Total Word Count\n\n"
          ++ "The document contains **0** words.\n\n"
          ++ "### 🏆 Top 10 Adjective Scoreboard\n\n"
          ++ "No adjectives were found in the document to display a scoreboard.\n" := by
  constructor
  · rw [htok]
    simp [analyze_text, analyzeWords, adjectivesOf, htag, counterList, dedupFirst,
      most_common, sortDesc]
  · rfl

theorem analyze_text_empty_input_report_witness :
    ((fun (_ : String) => ([] : List String)) "" = []
      ∧ (fun (_ : List String) => ([] : List (String × String))) [] = [])
    ∧ (analyze_text (fun _ => []) ((fun (_ : String) => ([] : List String)) "") = (0, [])
      ∧ generate_markdown_report 0 [] "doc.pdf"
          = "## 📄 Document Analysis Report\n\n"
            ++ ("**File Analyzed:** `" ++ basename "doc.pdf" ++ "`\n\n")
            ++ "---\n\n"
            ++ "### ✅ Total Word Count\n\n"
            ++ "The document contains **0** words.\n\n"
            ++ "### 🏆 Top 10 Adjective Scoreboard\n\n"
            ++ "No adjectives were found in the document to display a scoreboard.\n") :=
  ⟨⟨rfl, rfl⟩,
    analyze_text_empty_input_report (fun _ => []) (fun _ => []) "" "doc.pdf" rfl rfl⟩

theorem zip_range_chapter_names (l : List String) :
    (l.zip (List.range l.length)).map
        (fun p => "Chapter " ++ toString (p.2 + 1))
      = (List.range l.length).map (fun i => "Chapter " ++ toString (i + 1)) := by
  rw [show (fun (p : String × Nat) => "Chapter " ++ toString (p.2 + 1))
      = ((fun i => "Chapter " ++ toString (i + 1)) ∘ Prod.snd) from rfl]
  rw [← List.map_map]
  rw [List.map_snd_zip _ _ (by simp)]

/-- C9: for every tokenizer, tagger, text and path, analyze_by_chapter
returns the association list whose first entry is keyed "Full Document
Summary" and holds the report of an analysis of the complete text,
followed by entries keyed "Chapter 1", "Chapter 2", … in segment order,
each holding the (header-rewritten) report of an independent analyze_text
run over only that chapter's reconstructed text. -/
theorem analyze_by_chapter_structure
    (tokenize : String → List String) (tag : List String → List (String × String))
    (document_text file_path : String) :
    analyze_by_chapter tokenize tag document_text file_path
      = ("Full Document Summary",
          gui_generate_markdown_report (analyze_text tag (tokenize document_text)).1
            (analyze_text tag (tokenize document_text)).2 file_path)
        :: ((split_text_into_chapters tokenize document_text 3).zip
              (List.range (split_text_into_chapters tokenize document_text 3).length)).map
            (fun p => ("Chapter " ++ toString (p.2 + 1),
              chapterHeaderReplace ("Chapter " ++ toString (p.2 + 1))
                (gui_generate_markdown_report (analyze_text tag (tokenize p.1)).1
                  (analyze_text tag (tokenize p.1)).2 file_path)))
    ∧ (analyze_by_chapter tokenize tag document_text file_path).map Prod.fst
      = "Full Document Summary"
        :: (List.range (split_text_into_chapters tokenize document_text 3).length).map
            (fun i => "Chapter " ++ toString (i + 1)) := by
  constructor
  · rfl
  · show (("Full Document Summary",
        gui_generate_markdown_report (analyze_text tag (tokenize document_text)).1
          (analyze_text tag (tokenize document_text)).2 file_path)
        :: ((split_text_into_chapters tokenize document_text 3).zip
              (List.range (split_text_into_chapters tokenize document_text 3).length)).map
            (fun p => ("Chapter " ++ toString (p.2 + 1),
              chapterHeaderReplace ("Chapter " ++ toString (p.2 + 1))
                (gui_generate_markdown_report (analyze_text tag (tokenize p.1)).1
                  (analyze_text tag (tokenize p.1)).2 file_path)))).map Prod.fst = _
    rw [List.map_cons, List.map_map]
    rw [show (Prod.fst ∘ (fun (p : String × Nat) => ("Chapter " ++ toString (p.2 + 1),
        chapterHeaderReplace ("Chapter " ++ toString (p.2 + 1))
          (gui_generate_markdown_report (analyze_text tag (tokenize p.1)).1
            (analyze_text tag (tokenize p.1)).2 file_path))))
      = (fun (p : String × Nat) => "Chapter " ++ toString (p.2 + 1)) from rfl]
    rw [zip_range_chapter_names]

/-- C10: there is a document (an existing .docx whose only paragraph text
starts with "Error") whose extraction succeeds — the parser returns
normally and get_document_text returns the extracted text, not a sentinel —
yet the string-prefix test used by main_app and run_analysis classifies
that returned text as a failed extraction. -/
theorem extraction_success_misclassified :
    ∃ (fs : FileSystem) (path : String) (paras : List String),
      fs.pathExists path = true
      ∧ fs.docxParagraphs path = .ok paras
      ∧ get_document_text fs path = String.join (paras.map (fun p => p ++ "\n"))
      ∧ extraction_failed (get_document_text fs path) = true := by
  refine ⟨FileSystem.mk (fun _ => true) (fun _ => .error "e")
      (fun _ => .ok ["Error codes overview"]), "notes.docx", ["Error codes overview"],
    rfl, rfl, ?_, ?_⟩
  · decide
  · decide
